import Mathlib

/-!
Verification of the evidence retrieval and ranking pipeline
(`api/vector_db/lexical_filter.py`, `api/services/reranking_service.py`,
`api/services/search_service.py`, `api/vector_db/qdrant_manager.py`,
`api/models.py`).

Conventions of the embedding:
* Python floats are modelled as exact rationals (`ℚ`); every constant involved
  (0.05, 0.1, 0.2, 0.5, …) is treated exactly.
* Python `Optional` values are `Option`; Python truthiness is modelled
  explicitly where the source relies on it (`if result.year:` …).
* The pretrained encoder and the Qdrant engine are external collaborators;
  the store's response to the issued query is passed to the orchestrator as an
  explicit argument, and the evaluation semantics of the structured filter the
  code hands to Qdrant is modelled from the engine's documented contract.
* Wall-clock timing (`search_time_ms`) and the open `metadata` bag are omitted
  from the embedded response: real time is not statable and no claim touches
  either field.
-/

/-- Model of `api/models.py` `SearchResult` (a pydantic model).  Field defaults are the
pydantic defaults.  `vector_score`, `lexical_score`, `combined_score` are
floats in the source, embedded as `ℚ`. -/
structure SearchResult where
  paper_id : String
  title : String
  abstract : Option String := none
  authors : List String := []
  year : Option Int := none
  citation_count : Option Int := none
  publication_type : Option String := none
  doi : Option String := none
  url : Option String := none
  vector_score : ℚ := 0
  lexical_score : ℚ := 0
  combined_score : ℚ := 0
  source : String := "qdrant"
  evidence_quality : Int := 0
deriving DecidableEq

/-- Embedding of `api/vector_db/lexical_filter.py` `STOPWORDS` (a Python `set`; only
membership is used, so a list is an adequate embedding). -/
def STOPWORDS : List String :=
  ["a", "an", "and", "are", "as", "at", "be", "been", "by", "for", "from",
   "has", "have", "in", "is", "it", "its", "of", "on", "or", "that", "the",
   "to", "was", "were", "will", "with", "without",
   "study", "studies", "trial", "trials", "randomized", "randomised",
   "controlled", "double", "blind", "placebo", "effect", "effects",
   "treatment", "therapy", "patient", "patients", "women", "men", "woman",
   "man", "human", "humans", "subjects", "subject", "participants",
   "participant", "group", "groups", "outcome", "outcomes", "risk", "risks",
   "association", "associated", "impact", "clinical", "cohort", "review",
   "analysis", "analyzed", "evaluated", "compared", "result", "results",
   "data", "method", "methods", "research", "sample", "population", "design",
   "findings", "conclusion", "background", "objective", "intervention",
   "interventions", "measure", "measured", "assessment"]

/-- The fixed punctuation set of `_tokenize`: comma, period, semicolon, colon,
parentheses, square brackets, braces, double quote, single quote, exclamation
mark, question mark, forward slash, hyphen (in the source's order); the brace
and apostrophe characters are written via their code points. -/
def punctuationChars : List Char :=
  [',', '.', ';', ':', '(', ')', '[', ']', Char.ofNat 123, Char.ofNat 125,
   '"', Char.ofNat 39, '!', '?', '/', '-']

/-- Split a character list at every character satisfying `p`, keeping empty
pieces (the behaviour of splitting before filtering; Python's `str.split()`
additionally drops empties, which `tokenize` does with its final filter). -/
def splitOnPred (p : Char → Bool) : List Char → List (List Char)
  | [] => [[]]
  | c :: cs =>
      if p c then [] :: splitOnPred p cs
      else
        match splitOnPred p cs with
        | [] => [[c]]
        | t :: ts => (c :: t) :: ts

/-- Embedding of `_tokenize`: lowercase (per character, ASCII case mapping — the inputs are
ASCII biomedical text), replace each punctuation character by a space
(sequential single-character `str.replace` is equivalent to a character map),
split on whitespace, drop empty pieces (Python `str.split()` already drops
them; the comprehension `if t` drops the rest). -/
def tokenize (text : String) : List String :=
  let lowered := text.toList.map Char.toLower
  let stripped := lowered.map (fun c => if punctuationChars.contains c then ' ' else c)
  ((splitOnPred (fun c => c.isWhitespace) stripped).map String.mk).filter (fun t => t ≠ "")

/-- Query tokens surviving stopword removal (`query_content`). -/
def queryContent (query : String) : List String :=
  (tokenize query).filter (fun t => !(STOPWORDS.contains t))

/-- Computes `doc_text = title (+ " " + abstract if abstract truthy)`; an absent or
empty abstract contributes nothing. -/
def docText (title : String) (abstract : Option String) : String :=
  match abstract with
  | some a => if a = "" then title else title ++ " " ++ a
  | none => title

/-- Document tokens surviving stopword removal (`doc_content`). -/
def docContent (title : String) (abstract : Option String) : List String :=
  (tokenize (docText title abstract)).filter (fun t => !(STOPWORDS.contains t))

/-- Embedding of `compute_lexical_score` from `api/vector_db/lexical_filter.py`.
Python `set(...)` is embedded as `List.dedup`; only the cardinalities of the
sets and of their intersection are used. -/
def compute_lexical_score (query title : String) (abstract : Option String) : ℚ :=
  let query_content := queryContent query
  let doc_content := docContent title abstract
  if query_content = [] ∨ doc_content = [] then 0
  else
    let query_set := query_content.dedup
    let doc_set := doc_content.dedup
    let overlap_count := (query_set.filter (fun t => doc_set.contains t)).length
    let query_content_len := query_set.length
    if query_content_len = 0 then 0
    else (overlap_count : ℚ) / (query_content_len : ℚ) + (1 / 10) * (overlap_count : ℚ)

/-- The deduplicated query token set, as a finite set (specification view). -/
def querySet (query : String) : Finset String :=
  (queryContent query).toFinset

/-- The deduplicated document token set, as a finite set (specification view). -/
def docSet (title : String) (abstract : Option String) : Finset String :=
  (docContent title abstract).toFinset

/-- Configuration weights of `RerankingService.__init__`. -/
structure RerankConfig where
  lexical_weight : ℚ
  recency_bonus_2018 : ℚ
  recency_bonus_2022 : ℚ
  citation_bonus_50 : ℚ
  citation_bonus_10 : ℚ
deriving DecidableEq

/-- The constructor defaults of `RerankingService.__init__`
(0.2, 0.2, 0.2, 0.2, 0.1). -/
def defaultRerankConfig : RerankConfig :=
  { lexical_weight := 1 / 5
    recency_bonus_2018 := 1 / 5
    recency_bonus_2022 := 1 / 5
    citation_bonus_50 := 1 / 5
    citation_bonus_10 := 1 / 10 }

/-- Python truthiness of an `Optional[int]` (`None` and `0` are falsy). -/
def pyTruthyOptInt : Option Int → Bool
  | some n => n != 0
  | none => false

/-- Embedding of `RerankingService.compute_metadata_bonus`.  The source guards each
dimension with `if result.year:` / `if result.citation_count:`, i.e. Python
truthiness. -/
def compute_metadata_bonus (cfg : RerankConfig) (result : SearchResult) : ℚ :=
  let yearBonus :=
    if pyTruthyOptInt result.year then
      if 2022 ≤ result.year.getD 0 then cfg.recency_bonus_2022
      else if 2018 ≤ result.year.getD 0 then cfg.recency_bonus_2018
      else 0
    else 0
  let citationBonus :=
    if pyTruthyOptInt result.citation_count then
      if 50 ≤ result.citation_count.getD 0 then cfg.citation_bonus_50
      else if 10 ≤ result.citation_count.getD 0 then cfg.citation_bonus_10
      else 0
    else 0
  yearBonus + citationBonus

/-- The body of the `rerank` loop for one surviving result: attach the lexical
score and the combined score.  (`result.lexical_score = ...;
result.combined_score = ...` in the source.) -/
def applyScores (cfg : RerankConfig) (query : String) (result : SearchResult) : SearchResult :=
  let lexical_score := compute_lexical_score query result.title result.abstract
  let meta_bonus := compute_metadata_bonus cfg result
  { result with
      lexical_score := lexical_score
      combined_score := result.vector_score + cfg.lexical_weight * (lexical_score + meta_bonus) }

/-- The `reranked` list built by the loop of `RerankingService.rerank`, before
sorting: results whose lexical score is below `lexical_min` are skipped
(`continue`), the rest are score-updated and appended in input order. -/
def rerankUnsorted (cfg : RerankConfig) (query : String) (results : List SearchResult)
    (lexical_min : ℚ) : List SearchResult :=
  results.filterMap fun r =>
    if compute_lexical_score query r.title r.abstract < lexical_min then none
    else some (applyScores cfg query r)

/-- The state of the *input* list's objects after the loop of `rerank`
(Python mutates surviving results in place and leaves skipped ones untouched). -/
def rerankFinalState (cfg : RerankConfig) (query : String) (results : List SearchResult)
    (lexical_min : ℚ) : List SearchResult :=
  results.map fun r =>
    if compute_lexical_score query r.title r.abstract < lexical_min then r
    else applyScores cfg query r

/-- Descending order on `combined_score`: the sort relation realising
`reranked.sort(key=lambda r: r.combined_score, reverse=True)`. -/
def combinedGE (a b : SearchResult) : Prop :=
  b.combined_score ≤ a.combined_score

instance : DecidableRel combinedGE :=
  fun a b => inferInstanceAs (Decidable (b.combined_score ≤ a.combined_score))

instance : IsTotal SearchResult combinedGE :=
  ⟨fun a b => le_total b.combined_score a.combined_score⟩

instance : IsTrans SearchResult combinedGE :=
  ⟨fun _ _ _ h1 h2 => le_trans h2 h1⟩

/-- Embedding of `RerankingService.rerank`.  CPython's `list.sort` is stable also with
`reverse=True`; insertion sort on the descending relation `combinedGE` is the
corresponding stable descending sort. -/
def rerank (cfg : RerankConfig) (query : String) (results : List SearchResult)
    (lexical_min : ℚ) : List SearchResult :=
  List.insertionSort combinedGE (rerankUnsorted cfg query results lexical_min)

/-- Is `needle` a prefix of `hay`? (helper for the substring test). -/
def leadingMatch : List Char → List Char → Bool
  | [], _ => true
  | _ :: _, [] => false
  | a :: as, b :: bs => a == b && leadingMatch as bs

/-- Is `needle` a contiguous sublist of `hay`? -/
def charsContains (needle : List Char) : List Char → Bool
  | [] => needle.isEmpty
  | hay@(_ :: rest) => leadingMatch needle hay || charsContains needle rest

/-- Python's substring operator `needle in hay` for strings. -/
def isSubstring (needle hay : String) : Bool :=
  charsContains needle.toList hay.toList

/-- Computes `(result.publication_type or "").lower()`. -/
def pubTypeStr (r : SearchResult) : String :=
  ((r.publication_type.getD "").toList.map Char.toLower).asString

/-- Computes `citations = result.citation_count or 0` (both `None` and `0` give `0`). -/
def citationsOf (r : SearchResult) : Int :=
  r.citation_count.getD 0

/-- Computes `year = result.year or 0` (both `None` and `0` give `0`). -/
def yearOf (r : SearchResult) : Int :=
  r.year.getD 0

/-- Constant `current_year = 2025` (a fixed reference year in the source). -/
def currentYear : Int := 2025

/-- Classification of `assess_evidence_quality`: meta-analysis branch of the
`elif` chain. -/
def isMetaAnalysis (r : SearchResult) : Bool :=
  isSubstring "meta-analysis" (pubTypeStr r) || isSubstring "meta analysis" (pubTypeStr r)

/-- Systematic-review branch (reached only when the meta-analysis branch did
not fire). -/
def isSystematicReview (r : SearchResult) : Bool :=
  !(isMetaAnalysis r) && isSubstring "systematic review" (pubTypeStr r)

/-- RCT branch of the `elif` chain. -/
def isRct (r : SearchResult) : Bool :=
  !(isMetaAnalysis r) && !(isSystematicReview r) &&
    (isSubstring "randomized controlled trial" (pubTypeStr r) || isSubstring "rct" (pubTypeStr r))

/-- Other-review branch of the `elif` chain. -/
def isOtherReview (r : SearchResult) : Bool :=
  !(isMetaAnalysis r) && !(isSystematicReview r) && !(isRct r) &&
    isSubstring "review" (pubTypeStr r)

/-- Predicate of the `citations >= 100` tally. -/
def isHighCitation (r : SearchResult) : Bool :=
  decide (100 ≤ citationsOf r)

/-- Predicate of the `elif citations >= 50` tally (only when the high tier did not fire). -/
def isModerateCitation (r : SearchResult) : Bool :=
  !(isHighCitation r) && decide (50 ≤ citationsOf r)

/-- Predicate of the `year >= current_year - 3` tally. -/
def isRecent (r : SearchResult) : Bool :=
  decide (currentYear - 3 ≤ yearOf r)

/-- Base component: +1.0 for ≥5 results, else +0.5 for ≥3. -/
def baseScore (n : Nat) : ℚ :=
  if 5 ≤ n then 1 else if 3 ≤ n then 1 / 2 else 0

/-- Evidence-hierarchy component (the mutually exclusive `elif` ladder). -/
def hierarchyScore (meta sys rct rev : Nat) : ℚ :=
  if 2 ≤ meta then 5 / 2
  else if 1 ≤ meta then 2
  else if 2 ≤ sys then 2
  else if 1 ≤ sys then 3 / 2
  else if 3 ≤ rct then 3 / 2
  else if 1 ≤ rct then 1
  else if 2 ≤ rev then 1
  else if 1 ≤ rev then 1 / 2
  else 0

/-- Citation-impact component (mutually exclusive tiers). -/
def citationScore (high moderate : Nat) : ℚ :=
  if 2 ≤ high then 1
  else if 1 ≤ high then 1 / 2
  else if 2 ≤ moderate then 1 / 2
  else 0

/-- Recency component: +0.5 when at least two recent results. -/
def recencyScore (recent : Nat) : ℚ :=
  if 2 ≤ recent then 1 / 2 else 0

/-- Python 3 `round` on an exact rational: round to nearest, ties to even
(banker's rounding; exact because every score here is a small multiple of
0.5, hence exactly representable as a float in the source). -/
def pyRound (x : ℚ) : Int :=
  if x - Int.floor x < 1 / 2 then Int.floor x
  else if 1 / 2 < x - Int.floor x then Int.floor x + 1
  else if Int.floor x % 2 = 0 then Int.floor x else Int.floor x + 1

/-- Embedding of `RerankingService.assess_evidence_quality`: 0 for no results, otherwise
tally publication types, citation tiers and recency, add the four components
and return `min(5, round(score))`. -/
def assess_evidence_quality (results : List SearchResult) : Int :=
  if results = [] then 0
  else
    let meta_analyses := results.countP isMetaAnalysis
    let systematic_reviews := results.countP isSystematicReview
    let rcts := results.countP isRct
    let other_reviews := results.countP isOtherReview
    let high_citation_studies := results.countP isHighCitation
    let moderate_citation_studies := results.countP isModerateCitation
    let recent_studies := results.countP isRecent
    let score := baseScore results.length
      + hierarchyScore meta_analyses systematic_reviews rcts other_reviews
      + citationScore high_citation_studies moderate_citation_studies
      + recencyScore recent_studies
    min 5 (pyRound score)

/-- A loosely-typed payload value, as delivered by the vector store
(`payload: map[string, any]`). -/
inductive PyVal where
  | vstr (s : String)
  | vint (n : Int)
  | vrat (q : ℚ)
  | vlist (l : List PyVal)
  | vdict (d : List (String × PyVal))
  | vnone

/-- Python dict lookup returning `none` when the key is absent (keys are
unique in a dict, so first match suffices). -/
def dictGet (d : List (String × PyVal)) (k : String) : Option PyVal :=
  (d.find? (fun p => p.1 = k)).map Prod.snd

/-- Computes `d.get(k)` (default `None`). -/
def pyGet (d : List (String × PyVal)) (k : String) : PyVal :=
  (dictGet d k).getD PyVal.vnone

/-- Computes `d.get(k, dflt)`. -/
def pyGetD (d : List (String × PyVal)) (k : String) (dflt : PyVal) : PyVal :=
  (dictGet d k).getD dflt

/-- Python truthiness of a payload value. -/
def pyTruthy : PyVal → Bool
  | .vstr s => s ≠ ""
  | .vint n => n != 0
  | .vrat q => q.num != 0
  | .vlist l => !l.isEmpty
  | .vdict d => !d.isEmpty
  | .vnone => false

/-- Python `a or b`. -/
def pyOr (a b : PyVal) : PyVal :=
  if pyTruthy a then a else b

/-- Python `str()` of a payload value.  For strings it is the string itself
and for ints the decimal rendering; for the remaining shapes (reached only in
the DOI fallback path of `_to_search_result`, which no claim exercises) the
rendering is simplified — Python would print a full quoted repr. -/
def pyStr : PyVal → String
  | .vstr s => s
  | .vint n => toString n
  | .vrat q => toString q
  | .vnone => "None"
  | .vlist _ => "[...]"
  | .vdict _ => "\x7b...\x7d"

/-- One raw record of the list `QdrantManager.search` returns: the dict
`\x7b"id": str(point.id), "score": point.score, "payload": point.payload\x7d`
(fixed keys, so embedded as a typed record). -/
structure RawPoint where
  id : String
  score : ℚ
  payload : List (String × PyVal)

/-- Author coalescing of `_to_search_result`: keep plain strings, unwrap
name-bearing records with a truthy `name`; anything else contributes nothing
(a non-list `authors` value yields no authors).  Python would append the raw
`name` value itself and let pydantic coerce it; `pyStr` stands in for that
coercion. -/
def extractAuthors : PyVal → List String
  | .vlist items =>
      items.filterMap fun a =>
        match a with
        | .vstr s => some s
        | .vdict d =>
            let name := pyGetD d "name" (PyVal.vstr "")
            if pyTruthy name then some (pyStr name) else none
        | _ => none
  | _ => []

/-- DOI extraction of `_to_search_result`: try both key spellings of the
external-id map, unwrap a nested `\x7b"value": ...\x7d` shape.  (On a truthy
non-dict `external_ids` the Python code would raise `AttributeError`; store
payloads never carry that shape and no claim reaches it, so it is embedded as
"no DOI".) -/
def extractDoi (payload : List (String × PyVal)) : Option String :=
  let external_ids := pyOr (pyGet payload "external_ids") (pyGet payload "externalids")
  if pyTruthy external_ids then
    match external_ids with
    | .vdict d =>
        let doi_obj := pyOr (pyGet d "DOI") (pyGet d "doi")
        match doi_obj with
        | .vdict dd =>
            if pyTruthy doi_obj then
              let v := pyStr (pyGetD dd "value" (PyVal.vstr ""))
              if v ≠ "" then some v else some (pyStr doi_obj)
            else none
        | _ => if pyTruthy doi_obj then some (pyStr doi_obj) else none
    | _ => none
  else none

/-- Publication-type extraction of `_to_search_result`: a truthy, non-empty
list of labels is joined with `", "`. -/
def extractPubType (payload : List (String × PyVal)) : Option String :=
  let pub_types := pyOr (pyGet payload "publication_types") (pyGet payload "publicationtypes")
  match pub_types with
  | .vlist l => if !l.isEmpty then some (String.intercalate ", " (l.map pyStr)) else none
  | _ => none

/-- Embedding of `SearchService._to_search_result`: map one raw Qdrant record into a
`SearchResult`.  Note that `lexical_score` and `combined_score` are *not*
passed, so they take the pydantic model defaults (0.0). -/
def to_search_result (raw : RawPoint) : SearchResult :=
  let payload := raw.payload
  let pid := pyGetD payload "paper_id" (PyVal.vstr "")
  { paper_id := if pyTruthy pid then pyStr pid else raw.id
    title := pyStr (pyGetD payload "title" (PyVal.vstr ""))
    abstract := match pyGet payload "abstract" with | .vstr s => some s | _ => none
    authors := extractAuthors (pyGetD payload "authors" (PyVal.vlist []))
    year := match pyGet payload "year" with | .vint n => some n | _ => none
    citation_count :=
      match pyOr (pyGet payload "citation_count") (pyGet payload "citationcount") with
      | .vint n => some n
      | _ => none
    publication_type := extractPubType payload
    doi := extractDoi payload
    url := match pyGet payload "url" with | .vstr s => some s | _ => none
    vector_score := raw.score
    lexical_score := 0
    combined_score := 0
    source := "qdrant"
    evidence_quality := 0 }

/-- Model of `api/models.py` `SearchRequest` with its pydantic defaults.  `limit` is an
unconstrained Python `int` (no positivity validation is declared). -/
structure SearchRequest where
  query : String
  limit : Int := 5
  year_from : Option Int := none
  year_to : Option Int := none
  min_citations : Option Int := none
  lexical_min : ℚ := 1 / 20
  publication_types : Option (List String) := none
  use_reranking : Bool := true
  use_lexical_filter : Bool := true
deriving DecidableEq

/-- Model of `api/models.py` `SearchResponse` (without the wall-clock
`search_time_ms` and the open `metadata` bag, which no claim touches). -/
structure SearchResponse where
  query : String
  results : List SearchResult
  total_found : Nat
  evidence_quality : Int
deriving DecidableEq

/-- Python's slice `l[:n]`, including the negative-`n` behaviour
(`l[:-k]` drops the last `k` elements). -/
def pySliceTo (n : Int) (l : List α) : List α :=
  if 0 ≤ n then l.take n.toNat else l.take ((l.length : Int) + n).toNat

/-- Embedding of `SearchService.search`: convert the raw store records, reranks when
requested (with floor 0.0 when lexical filtering is disabled), truncate to
`limit`, and assess evidence quality over the truncated list.  Encoding and
the Qdrant call are external; `raw` is the store's response to the issued
query.  No branch of this function raises. -/
def SearchService.search (request : SearchRequest) (raw : List RawPoint) : SearchResponse :=
  let results0 := raw.map to_search_result
  let results1 :=
    if request.use_reranking then
      rerank defaultRerankConfig request.query results0
        (if request.use_lexical_filter then request.lexical_min else 0)
    else results0
  let results2 := pySliceTo request.limit results1
  { query := request.query
    results := results2
    total_found := results2.length
    evidence_quality := assess_evidence_quality results2 }

/-- The filter dict built by `SearchService._build_filters`; each entry is
guarded by Python truthiness of the request field (`if request.year_from:` —
a zero value or an empty list is dropped like an absent one). -/
structure QdrantFilters where
  year_gte : Option Int
  year_lte : Option Int
  citations_gte : Option Int
  publication_types : Option (List String)
deriving DecidableEq

/-- Embedding of `SearchService._build_filters`. -/
def build_filters (request : SearchRequest) : QdrantFilters :=
  { year_gte :=
      match request.year_from with
      | some y => if y != 0 then some y else none
      | none => none
    year_lte :=
      match request.year_to with
      | some y => if y != 0 then some y else none
      | none => none
    citations_gte :=
      match request.min_citations with
      | some c => if c != 0 then some c else none
      | none => none
    publication_types :=
      match request.publication_types with
      | some ts => if !ts.isEmpty then some ts else none
      | none => none }

/-- One Qdrant `FieldCondition` as constructed in `QdrantManager.search`. -/
inductive FieldCondition where
  | rangeGte (key : String) (v : Int)
  | rangeLte (key : String) (v : Int)
  | matchValue (key : String) (v : String)
deriving DecidableEq

/-- The Qdrant `Filter(must=filter_conditions)` object. -/
structure QdrantFilter where
  must : List FieldCondition
deriving DecidableEq

/-- The `filter_conditions` list built in `QdrantManager.search`, in source
order; note that every publication type is appended to the same `must` list. -/
def filter_conditions (filters : QdrantFilters) : List FieldCondition :=
  (match filters.year_gte with
   | some v => [FieldCondition.rangeGte "year" v]
   | none => []) ++
  (match filters.year_lte with
   | some v => [FieldCondition.rangeLte "year" v]
   | none => []) ++
  (match filters.citations_gte with
   | some v => [FieldCondition.rangeGte "citationcount" v]
   | none => []) ++
  (match filters.publication_types with
   | some ts => ts.map (fun t => FieldCondition.matchValue "publicationtypes" t)
   | none => [])

/-- Embedding of `search_filter`: `None` when no condition was built, else
`Filter(must=conditions)`. -/
def search_filter (filters : QdrantFilters) : Option QdrantFilter :=
  let conds := filter_conditions filters
  if conds.isEmpty then none else some { must := conds }

/-- The stored document fields the built filter can touch (`year`,
`citationcount`, `publicationtypes` in the store's payload). -/
structure StoredDoc where
  year : Option Int
  citationcount : Option Int
  publicationtypes : List String
deriving DecidableEq

/-- Integer field lookup on a stored document. -/
def docFieldInt (doc : StoredDoc) (key : String) : Option Int :=
  if key = "year" then doc.year
  else if key = "citationcount" then doc.citationcount
  else none

/-- Modelled from the spec: the vector store engine's condition evaluation is
external to this repository (§6: "numeric range conditions keyed by field
name (gte, lte), and value-match conditions ... keyed by field name"); per
the engine's documented contract a range condition compares the numeric
field and a match condition on an array field passes when the array contains
the value. -/
def evalCondition (doc : StoredDoc) : FieldCondition → Bool
  | .rangeGte key v =>
      match docFieldInt doc key with
      | some x => decide (v ≤ x)
      | none => false
  | .rangeLte key v =>
      match docFieldInt doc key with
      | some x => decide (x ≤ v)
      | none => false
  | .matchValue key v =>
      if key = "publicationtypes" then doc.publicationtypes.contains v else false

/-- Modelled from the spec: a `must` clause is conjunctive — the document
must satisfy every condition in the list; an absent filter passes everything. -/
def evalFilter (doc : StoredDoc) : Option QdrantFilter → Bool
  | none => true
  | some f => f.must.all (evalCondition doc)

/-- All fields of a `SearchResult` except `lexical_score` and
`combined_score` agree (the frame of `rerank`'s in-place update). -/
def agreesExceptScores (r r' : SearchResult) : Prop :=
  r'.paper_id = r.paper_id ∧ r'.title = r.title ∧ r'.abstract = r.abstract ∧
  r'.authors = r.authors ∧ r'.year = r.year ∧ r'.citation_count = r.citation_count ∧
  r'.publication_type = r.publication_type ∧ r'.doi = r.doi ∧ r'.url = r.url ∧
  r'.vector_score = r.vector_score ∧ r'.source = r.source ∧
  r'.evidence_quality = r.evidence_quality

instance : DecidableRel agreesExceptScores := fun r r' => by
  unfold agreesExceptScores
  infer_instance

/-- Scenario fixture: 2023 publication, 0 citations, vector score 0.85. -/
def scenarioResult2023 : SearchResult :=
  { paper_id := "p2023", title := "berberine", year := some 2023,
    citation_count := some 0, vector_score := 17 / 20 }

/-- Scenario fixture: identical to `scenarioResult2023` except the year. -/
def scenarioResult2019 : SearchResult :=
  { paper_id := "p2019", title := "berberine", year := some 2019,
    citation_count := some 0, vector_score := 17 / 20 }

/-- Fixture: a result whose title shares no token with the query
"berberine" (lexical score 0, dropped by any positive floor). -/
def unrelatedResult : SearchResult :=
  { paper_id := "punrel", title := "zinc", vector_score := 3 / 4 }

/-- Fixture for Scenario D: a single Meta-Analysis with no citation count and
no year. -/
def metaOnlyResult : SearchResult :=
  { paper_id := "m", title := "m", publication_type := some "Meta-Analysis",
    vector_score := 4 / 5 }

/-- Fixture: a meta-analysis with 150 citations published in the reference
year 2025. -/
def strongMetaResult : SearchResult :=
  { paper_id := "sm", title := "sm", publication_type := some "Meta-Analysis",
    citation_count := some 150, year := some 2025, vector_score := 4 / 5 }

/-- Fixture: one raw store record with similarity score 0.85 and an empty
payload. -/
def samplePoint : RawPoint :=
  { id := "1", score := 17 / 20, payload := [] }

/-! ## Theorems -/

theorem compute_lexical_score_nonneg (query title : String) (abstract : Option String) :
    0 ≤ compute_lexical_score query title abstract := by
  unfold compute_lexical_score
  simp only []
  split
  · exact le_refl 0
  · split
    · exact le_refl 0
    · positivity

/-- C1 (counterexample): a request for the two publication types "Review" and
"Meta-Analysis" produces a filter that *rejects* a document carrying only
"Review", even though the document matches one of the requested types — the
built `must` list is conjunctive, not disjunctive. -/
theorem claim1_pubtypes_counterexample :
    (StoredDoc.mk none none ["Review"]).publicationtypes.contains "Review" = true ∧
    evalFilter (StoredDoc.mk none none ["Review"])
      (search_filter (build_filters
        { query := "q", publication_types := some ["Review", "Meta-Analysis"] })) = false := by
  constructor
  · decide
  · decide

/-- C1 (amended): each requested publication type becomes one `must`
condition of the filter passed to the vector store, so the labels combine
conjunctively — a document passes the built filter exactly when its
publication-type array contains *every* requested label. -/
theorem claim1_pubtypes_conjunctive (ts : List String) (doc : StoredDoc) :
    evalFilter doc (search_filter (build_filters
        { query := "q", publication_types := some ts })) = true ↔
      ∀ t ∈ ts, doc.publicationtypes.contains t = true := by
  cases ts with
  | nil => simp [build_filters, filter_conditions, search_filter, evalFilter]
  | cons t ts =>
      simp [build_filters, filter_conditions, search_filter, evalFilter, evalCondition,
        List.all_eq_true]

/-- C4 (counterexample): for the single Meta-Analysis result with no citation
count and no year, `assess_evidence_quality` returns less than 3 — the base
component is 0 for fewer than 3 results, so the sum is 2.0, not 2.5. -/
theorem claim4_single_meta_counterexample :
    ¬ (3 ≤ assess_evidence_quality [metaOnlyResult]) := by
  have hmeta : [metaOnlyResult].countP isMetaAnalysis = 1 := by decide
  have hsys : [metaOnlyResult].countP isSystematicReview = 0 := by decide
  have hrct : [metaOnlyResult].countP isRct = 0 := by decide
  have hrev : [metaOnlyResult].countP isOtherReview = 0 := by decide
  have hhigh : [metaOnlyResult].countP isHighCitation = 0 := by decide
  have hmod : [metaOnlyResult].countP isModerateCitation = 0 := by decide
  have hrec : [metaOnlyResult].countP isRecent = 0 := by decide
  simp only [assess_evidence_quality, hmeta, hsys, hrct, hrev, hhigh, hmod, hrec]
  norm_num [baseScore, hierarchyScore, citationScore, recencyScore, pyRound]

/-- C4 (amended): for a single Meta-Analysis result with no citation count
and no year, `assess_evidence_quality` returns exactly 2 (hierarchy bonus
2.0; the 0.5 base component needs at least 3 results). -/
theorem claim4_single_meta_grade :
    assess_evidence_quality [metaOnlyResult] = 2 := by
  have hmeta : [metaOnlyResult].countP isMetaAnalysis = 1 := by decide
  have hsys : [metaOnlyResult].countP isSystematicReview = 0 := by decide
  have hrct : [metaOnlyResult].countP isRct = 0 := by decide
  have hrev : [metaOnlyResult].countP isOtherReview = 0 := by decide
  have hhigh : [metaOnlyResult].countP isHighCitation = 0 := by decide
  have hmod : [metaOnlyResult].countP isModerateCitation = 0 := by decide
  have hrec : [metaOnlyResult].countP isRecent = 0 := by decide
  simp only [assess_evidence_quality, hmeta, hsys, hrct, hrev, hhigh, hmod, hrec]
  norm_num [baseScore, hierarchyScore, citationScore, recencyScore, pyRound]

theorem lexical_score_berberine :
    compute_lexical_score "berberine" "berberine" none = 11 / 10 := by
  have h1 : queryContent "berberine" = ["berberine"] := by decide
  have h2 : docContent "berberine" none = ["berberine"] := by decide
  simp [compute_lexical_score, h1, h2, List.dedup]
  norm_num

theorem lexical_score_zinc :
    compute_lexical_score "berberine" "zinc" none = 0 := by
  have h1 : queryContent "berberine" = ["berberine"] := by decide
  have h2 : docContent "zinc" none = ["zinc"] := by decide
  simp [compute_lexical_score, h1, h2, List.dedup]

/-- C2 (counterexample): in the default configuration the 2018-tier recency
bonus is *not* strictly smaller than the 2022-tier bonus (both are 0.2), and
for the two Scenario-C results — identical except for the year (2023 vs
2019), 0 citations, vector score 0.85, lexical floor 0 — reranking gives both
the same combined score 1.11, so the 2023 result's score does not strictly
exceed the 2019 result's. -/
theorem claim2_recency_counterexample :
    ¬ (defaultRerankConfig.recency_bonus_2018 < defaultRerankConfig.recency_bonus_2022) ∧
    (rerank defaultRerankConfig "berberine" [scenarioResult2023, scenarioResult2019] 0).map
        SearchResult.combined_score = [111 / 100, 111 / 100] := by
  constructor
  · norm_num [defaultRerankConfig]
  · simp only [rerank, rerankUnsorted, applyScores, List.filterMap_cons, List.filterMap_nil,
      scenarioResult2023, scenarioResult2019, lexical_score_berberine, compute_metadata_bonus,
      pyTruthyOptInt, defaultRerankConfig]
    norm_num [List.insertionSort, List.orderedInsert, combinedGE]

/-- C2 (amended): with the default configuration the 2018-tier and 2022-tier
recency bonuses are equal (0.2 each); consequently, for the two Scenario-C
results the reranked combined scores are equal — the 2023 result's score is
greater than or equal to the 2019 result's, but not strictly greater. -/
theorem claim2_recency_equal :
    defaultRerankConfig.recency_bonus_2018 = defaultRerankConfig.recency_bonus_2022 ∧
    ∃ c : ℚ, (rerank defaultRerankConfig "berberine" [scenarioResult2023, scenarioResult2019] 0).map
        SearchResult.combined_score = [c, c] := by
  refine ⟨rfl, ⟨111 / 100, ?_⟩⟩
  simp only [rerank, rerankUnsorted, applyScores, List.filterMap_cons, List.filterMap_nil,
    scenarioResult2023, scenarioResult2019, lexical_score_berberine, compute_metadata_bonus,
    pyTruthyOptInt, defaultRerankConfig]
  norm_num [List.insertionSort, List.orderedInsert, combinedGE]

/-- C3 (counterexample): a search with `use_reranking = false` over one store
record with similarity 0.85 returns a result whose `combined_score` is 0.0
(the pydantic model default, never overwritten on this path), not its
`vector_score` 0.85. -/
theorem claim3_counterexample :
    ((SearchService.search { query := "q", use_reranking := false } [samplePoint]).results.map
        (fun r => (r.vector_score, r.combined_score))) = [(17 / 20, 0)] ∧
    (17 / 20 : ℚ) ≠ 0 := by
  constructor
  · rfl
  · norm_num

/-- C3 (amended): for every search request with `use_reranking` false, every
result in the response has `combined_score` equal to 0.0, the model default
(`_to_search_result` does not set it) — not, in general, its vector score. -/
theorem claim3_no_rerank_combined_zero (request : SearchRequest) (raw : List RawPoint)
    (h : request.use_reranking = false) :
    ∀ r ∈ (SearchService.search request raw).results, r.combined_score = 0 := by
  intro r hr
  unfold SearchService.search at hr
  rw [h] at hr
  simp only [Bool.false_eq_true, if_false] at hr
  have hr' : r ∈ raw.map to_search_result := by
    unfold pySliceTo at hr
    split at hr <;> exact (List.take_sublist _ _).subset hr
  obtain ⟨p, _, rfl⟩ := List.mem_map.mp hr'
  rfl

theorem claim3_no_rerank_combined_zero_witness :
    ({ query := "q", use_reranking := false } : SearchRequest).use_reranking = false ∧
    (to_search_result samplePoint).combined_score = 0 :=
  ⟨rfl, claim3_no_rerank_combined_zero { query := "q", use_reranking := false } [samplePoint]
    rfl (to_search_result samplePoint) (by
      show to_search_result samplePoint ∈
        (SearchService.search { query := "q", use_reranking := false } [samplePoint]).results
      exact List.mem_singleton.mpr rfl)⟩

/-- C9: the code does not fail fast on a non-positive limit.  `SearchRequest`
declares no positivity constraint and `SearchService.search` never checks
`limit`; at `limit = 0` with a non-empty store response the call returns a
normal empty response (Python's `results[:0]`) instead of raising. -/
theorem claim9_limit_zero_returns_normally :
    SearchService.search { query := "q", limit := 0 } [samplePoint] =
      { query := "q", results := [], total_found := 0, evidence_quality := 0 } := by
  rfl

theorem compute_metadata_bonus_default_nonneg (r : SearchResult) :
    0 ≤ compute_metadata_bonus defaultRerankConfig r := by
  simp only [compute_metadata_bonus, defaultRerankConfig]
  split_ifs <;> norm_num

/-- C5: with the default configuration, every result returned by `rerank`
has `combined_score ≥ vector_score` (the additive term
`0.2 * (lexical_score + metadata_bonus)` is non-negative). -/
theorem claim5_combined_ge_vector (query : String) (results : List SearchResult)
    (lexical_min : ℚ) (r : SearchResult)
    (hr : r ∈ rerank defaultRerankConfig query results lexical_min) :
    r.vector_score ≤ r.combined_score := by
  rw [rerank, List.mem_insertionSort, rerankUnsorted] at hr
  obtain ⟨x, _, hfx⟩ := List.mem_filterMap.mp hr
  by_cases hlt : compute_lexical_score query x.title x.abstract < lexical_min
  · rw [if_pos hlt] at hfx
    cases hfx
  · rw [if_neg hlt] at hfx
    injection hfx with hfx
    subst hfx
    simp only [applyScores, defaultRerankConfig]
    have h1 := compute_lexical_score_nonneg query x.title x.abstract
    have h2 := compute_metadata_bonus_default_nonneg x
    have h3 : (0 : ℚ) ≤ compute_metadata_bonus
        { lexical_weight := 1 / 5, recency_bonus_2018 := 1 / 5, recency_bonus_2022 := 1 / 5,
          citation_bonus_50 := 1 / 5, citation_bonus_10 := 1 / 10 } x := by
      simpa [defaultRerankConfig] using h2
    nlinarith

theorem claim5_witness :
    (applyScores defaultRerankConfig "berberine" scenarioResult2023).vector_score ≤
      (applyScores defaultRerankConfig "berberine" scenarioResult2023).combined_score :=
  claim5_combined_ge_vector "berberine" [scenarioResult2023] 0 _ (by
    rw [rerank, List.mem_insertionSort, rerankUnsorted]
    simp only [List.filterMap_cons, List.filterMap_nil]
    rw [if_neg (by
      rw [show scenarioResult2023.title = "berberine" from rfl,
        show scenarioResult2023.abstract = none from rfl, lexical_score_berberine]
      norm_num)]
    exact List.mem_singleton.mpr rfl)

theorem filter_orderedInsert_combined (c : ℚ) (a : SearchResult) (l : List SearchResult) :
    (List.orderedInsert combinedGE a l).filter (fun r => r.combined_score == c) =
      (a :: l).filter (fun r => r.combined_score == c) := by
  induction l with
  | nil => rfl
  | cons b t ih =>
      rw [List.orderedInsert]
      by_cases hab : combinedGE a b
      · rw [if_pos hab]
      · rw [if_neg hab]
        unfold combinedGE at hab
        have hab' : a.combined_score < b.combined_score := not_le.mp hab
        by_cases hpa : a.combined_score = c <;> by_cases hpb : b.combined_score = c
        · exfalso
          rw [hpa, hpb] at hab'
          exact lt_irrefl c hab'
        · simp [List.filter_cons, beq_iff_eq, hpa, hpb, ih]
        · simp [List.filter_cons, beq_iff_eq, hpa, hpb, ih]
        · simp [List.filter_cons, beq_iff_eq, hpa, hpb, ih]

theorem filter_insertionSort_combined (c : ℚ) (l : List SearchResult) :
    (List.insertionSort combinedGE l).filter (fun r => r.combined_score == c) =
      l.filter (fun r => r.combined_score == c) := by
  induction l with
  | nil => rfl
  | cons a t ih =>
      rw [List.insertionSort, filter_orderedInsert_combined, List.filter_cons, List.filter_cons, ih]

/-- C6: the list returned by `rerank` is sorted by `combined_score` in
descending order, and the sort is stable: for every score value the sublist
of results carrying that score is exactly the corresponding sublist of the
pre-sort survivor list (which preserves the vector store's order). -/
theorem claim6_sorted_and_stable (cfg : RerankConfig) (query : String)
    (results : List SearchResult) (lexical_min : ℚ) :
    List.Sorted combinedGE (rerank cfg query results lexical_min) ∧
    ∀ c : ℚ, (rerank cfg query results lexical_min).filter (fun r => r.combined_score == c) =
      (rerankUnsorted cfg query results lexical_min).filter (fun r => r.combined_score == c) :=
  ⟨List.sorted_insertionSort combinedGE (rerankUnsorted cfg query results lexical_min),
   fun c => filter_insertionSort_combined c (rerankUnsorted cfg query results lexical_min)⟩

/-- C7: the lexical score is non-negative; it is 0.0 when either token set is
empty after stopword removal, and otherwise equals
`|query∩doc| / |query_content_set| + 0.1 * |query∩doc|` over the
deduplicated, lowercased, punctuation-stripped, stopword-filtered token sets
(stated here with finite sets and `Finset.card`). -/
theorem claim7_lexical_score_contract (query title : String) (abstract : Option String) :
    0 ≤ compute_lexical_score query title abstract ∧
    compute_lexical_score query title abstract =
      (if queryContent query = [] ∨ docContent title abstract = [] then 0
       else ((querySet query ∩ docSet title abstract).card : ℚ) / ((querySet query).card : ℚ)
            + (1 / 10) * ((querySet query ∩ docSet title abstract).card : ℚ)) := by
  refine ⟨compute_lexical_score_nonneg query title abstract, ?_⟩
  by_cases h : queryContent query = [] ∨ docContent title abstract = []
  · rw [if_pos h]
    unfold compute_lexical_score
    simp only []
    rw [if_pos h]
  · rw [if_neg h]
    unfold compute_lexical_score
    simp only []
    rw [if_neg h]
    push_neg at h
    have hlen : ¬ ((queryContent query).dedup.length = 0) := by
      rw [List.length_eq_zero, List.dedup_eq_nil]
      exact h.1
    rw [if_neg hlen]
    have hqcard : (querySet query).card = (queryContent query).dedup.length :=
      List.card_toFinset _
    have hover : ((queryContent query).dedup.filter
        (fun t => (docContent title abstract).dedup.contains t)).length =
        (querySet query ∩ docSet title abstract).card := by
      have hnd : ((queryContent query).dedup.filter
          (fun t => (docContent title abstract).dedup.contains t)).Nodup :=
        (List.nodup_dedup _).filter _
      rw [← List.toFinset_card_of_nodup hnd]
      congr 1
      ext x
      simp [querySet, docSet, List.mem_filter, List.mem_dedup, Finset.mem_inter]
    rw [hover, hqcard]

theorem baseScore_nonneg (n : Nat) : 0 ≤ baseScore n := by
  unfold baseScore
  split_ifs <;> norm_num

theorem hierarchyScore_nonneg (meta sys rct rev : Nat) : 0 ≤ hierarchyScore meta sys rct rev := by
  unfold hierarchyScore
  split_ifs <;> norm_num

theorem citationScore_nonneg (high moderate : Nat) : 0 ≤ citationScore high moderate := by
  unfold citationScore
  split_ifs <;> norm_num

theorem recencyScore_nonneg (recent : Nat) : 0 ≤ recencyScore recent := by
  unfold recencyScore
  split_ifs <;> norm_num

theorem baseScore_mono {n m : Nat} (h : n ≤ m) : baseScore n ≤ baseScore m := by
  unfold baseScore
  split_ifs <;> first | (exfalso; omega) | norm_num

theorem hierarchyScore_le (meta sys rct rev : Nat) : hierarchyScore meta sys rct rev ≤ 5 / 2 := by
  unfold hierarchyScore
  split_ifs <;> norm_num

theorem hierarchyScore_zero_meta_le (sys rct rev : Nat) : hierarchyScore 0 sys rct rev ≤ 2 := by
  unfold hierarchyScore
  split_ifs <;> first | (exfalso; omega) | norm_num

theorem hierarchyScore_add_meta (meta sys rct rev : Nat) :
    hierarchyScore meta sys rct rev ≤ hierarchyScore (meta + 1) sys rct rev := by
  rcases Nat.lt_or_ge meta 1 with hm | hm
  · have h0 : meta = 0 := by omega
    subst h0
    have h1 : hierarchyScore (0 + 1) sys rct rev = 2 := by
      unfold hierarchyScore
      norm_num
    rw [h1]
    exact hierarchyScore_zero_meta_le sys rct rev
  · have h1 : hierarchyScore (meta + 1) sys rct rev = 5 / 2 := by
      unfold hierarchyScore
      rw [if_pos (by omega)]
    rw [h1]
    exact hierarchyScore_le meta sys rct rev

theorem citationScore_le (high moderate : Nat) : citationScore high moderate ≤ 1 := by
  unfold citationScore
  split_ifs <;> norm_num

theorem citationScore_add_high (high moderate : Nat) :
    citationScore high moderate ≤ citationScore (high + 1) moderate := by
  rcases Nat.lt_or_ge high 1 with hh | hh
  · have h0 : high = 0 := by omega
    subst h0
    have h1 : citationScore (0 + 1) moderate = 1 / 2 := by
      unfold citationScore
      norm_num
    rw [h1]
    unfold citationScore
    split_ifs <;> first | (exfalso; omega) | norm_num
  · have h1 : citationScore (high + 1) moderate = 1 := by
      unfold citationScore
      rw [if_pos (by omega)]
    rw [h1]
    exact citationScore_le high moderate

theorem recencyScore_add (recent : Nat) : recencyScore recent ≤ recencyScore (recent + 1) := by
  unfold recencyScore
  split_ifs <;> first | (exfalso; omega) | norm_num

theorem pyRound_nonneg {x : ℚ} (hx : 0 ≤ x) : 0 ≤ pyRound x := by
  unfold pyRound
  have h0 : (0 : ℤ) ≤ Int.floor x := Int.floor_nonneg.mpr hx
  split_ifs <;> omega

theorem pyRound_mono {x y : ℚ} (h : x ≤ y) : pyRound x ≤ pyRound y := by
  unfold pyRound
  have hf : Int.floor x ≤ Int.floor y := Int.floor_le_floor h
  rcases eq_or_lt_of_le hf with heq | hlt
  · rw [heq]
    have hxy : x - (Int.floor y : ℚ) ≤ y - (Int.floor y : ℚ) := by linarith
    split_ifs <;> first | omega | (exfalso; linarith)
  · split_ifs <;> omega

theorem assess_evidence_quality_nonneg (results : List SearchResult) :
    0 ≤ assess_evidence_quality results := by
  unfold assess_evidence_quality
  split
  · exact le_refl 0
  · refine le_min (by norm_num) (pyRound_nonneg ?_)
    have h1 := baseScore_nonneg results.length
    have h2 := hierarchyScore_nonneg (results.countP isMetaAnalysis)
      (results.countP isSystematicReview) (results.countP isRct) (results.countP isOtherReview)
    have h3 := citationScore_nonneg (results.countP isHighCitation)
      (results.countP isModerateCitation)
    have h4 := recencyScore_nonneg (results.countP isRecent)
    linarith

/-- C8: `assess_evidence_quality` of the empty list is 0, and appending a
meta-analysis with at least 100 citations published in the reference year
never decreases the returned grade. -/
theorem claim8_assess_empty_and_monotone :
    assess_evidence_quality [] = 0 ∧
    ∀ (results : List SearchResult) (r : SearchResult),
      isMetaAnalysis r = true → 100 ≤ citationsOf r → yearOf r = currentYear →
      assess_evidence_quality results ≤ assess_evidence_quality (results ++ [r]) := by
  refine ⟨rfl, ?_⟩
  intro results r hm hc hy
  have hsys : isSystematicReview r = false := by
    unfold isSystematicReview
    rw [hm]
    rfl
  have hrct : isRct r = false := by
    unfold isRct
    rw [hm]
    rfl
  have hrev : isOtherReview r = false := by
    unfold isOtherReview
    rw [hm]
    rfl
  have hhigh : isHighCitation r = true := by
    unfold isHighCitation
    exact decide_eq_true hc
  have hmod : isModerateCitation r = false := by
    unfold isModerateCitation
    rw [hhigh]
    rfl
  have hrec : isRecent r = true := by
    unfold isRecent
    rw [hy]
    decide
  cases results with
  | nil =>
      rw [show assess_evidence_quality [] = 0 from rfl]
      exact assess_evidence_quality_nonneg ([] ++ [r])
  | cons a t =>
      have hne : (a :: t : List SearchResult) ≠ [] := by simp
      have hne2 : (a :: t ++ [r] : List SearchResult) ≠ [] := by simp
      unfold assess_evidence_quality
      rw [if_neg hne, if_neg hne2]
      simp only [List.countP_append, List.countP_cons, List.countP_nil, List.length_append,
        List.length_cons, List.length_nil, hm, hsys, hrct, hrev, hhigh, hmod, hrec,
        Bool.false_eq_true, if_true, if_false, Nat.add_zero, Nat.zero_add]
      refine min_le_min (le_refl 5) (pyRound_mono ?_)
      have hb := baseScore_mono (show (a :: t).length ≤ (a :: t).length + 1 by omega)
      have hh := hierarchyScore_add_meta ((a :: t).countP isMetaAnalysis)
        ((a :: t).countP isSystematicReview) ((a :: t).countP isRct)
        ((a :: t).countP isOtherReview)
      have hcs := citationScore_add_high ((a :: t).countP isHighCitation)
        ((a :: t).countP isModerateCitation)
      have hrs := recencyScore_add ((a :: t).countP isRecent)
      simp only [List.countP_cons, List.length_cons] at hb hh hcs hrs ⊢
      linarith

theorem claim8_witness :
    assess_evidence_quality [] = 0 ∧
    isMetaAnalysis strongMetaResult = true ∧
    assess_evidence_quality [] ≤ assess_evidence_quality ([] ++ [strongMetaResult]) :=
  ⟨claim8_assess_empty_and_monotone.1, by decide,
   claim8_assess_empty_and_monotone.2 [] strongMetaResult (by decide) (by decide) (by decide)⟩

theorem zip_map_self_snd {α : Type} (f : α → α) (l : List α) (pr : α × α)
    (h : pr ∈ l.zip (l.map f)) : pr.2 = f pr.1 := by
  induction l with
  | nil => cases h
  | cons a t ih =>
      rw [List.map_cons, List.zip_cons_cons] at h
      rcases List.mem_cons.mp h with h | h
      · subst h
        rfl
      · exact ih h

/-- C10: every result returned by `rerank` is an input result changed only in
its `lexical_score` and `combined_score` fields; and an input result dropped
by the lexical floor is left untouched by the loop (its after-loop state
equals its input state). -/
theorem claim10_rerank_frame (cfg : RerankConfig) (query : String)
    (results : List SearchResult) (lexical_min : ℚ) :
    (∀ r' ∈ rerank cfg query results lexical_min, ∃ r ∈ results, agreesExceptScores r r') ∧
    (∀ pr ∈ results.zip (rerankFinalState cfg query results lexical_min),
        compute_lexical_score query pr.1.title pr.1.abstract < lexical_min → pr.2 = pr.1) := by
  constructor
  · intro r' hr'
    rw [rerank, List.mem_insertionSort, rerankUnsorted] at hr'
    obtain ⟨x, hx, hfx⟩ := List.mem_filterMap.mp hr'
    by_cases hlt : compute_lexical_score query x.title x.abstract < lexical_min
    · rw [if_pos hlt] at hfx
      cases hfx
    · rw [if_neg hlt] at hfx
      injection hfx with hfx
      subst hfx
      exact ⟨x, hx, rfl, rfl, rfl, rfl, rfl, rfl, rfl, rfl, rfl, rfl, rfl, rfl⟩
  · intro pr hpr hlt
    rw [rerankFinalState] at hpr
    have h := zip_map_self_snd _ results pr hpr
    refine h.trans ?_
    exact if_pos hlt

theorem rerank_pair_eval :
    rerank defaultRerankConfig "berberine" [scenarioResult2023, unrelatedResult] (1 / 20) =
      [applyScores defaultRerankConfig "berberine" scenarioResult2023] := by
  have h1 : compute_lexical_score "berberine" scenarioResult2023.title
      scenarioResult2023.abstract = 11 / 10 := lexical_score_berberine
  have h2 : compute_lexical_score "berberine" unrelatedResult.title
      unrelatedResult.abstract = 0 := lexical_score_zinc
  rw [rerank, rerankUnsorted]
  simp only [List.filterMap_cons, List.filterMap_nil, h1, h2]
  norm_num [List.insertionSort, List.orderedInsert]

theorem rerankFinalState_pair_eval :
    rerankFinalState defaultRerankConfig "berberine" [scenarioResult2023, unrelatedResult]
        (1 / 20) =
      [applyScores defaultRerankConfig "berberine" scenarioResult2023, unrelatedResult] := by
  have h1 : compute_lexical_score "berberine" scenarioResult2023.title
      scenarioResult2023.abstract = 11 / 10 := lexical_score_berberine
  have h2 : compute_lexical_score "berberine" unrelatedResult.title
      unrelatedResult.abstract = 0 := lexical_score_zinc
  rw [rerankFinalState]
  simp only [List.map_cons, List.map_nil, h1, h2]
  norm_num

theorem claim10_witness :
    (∃ r ∈ [scenarioResult2023, unrelatedResult],
        agreesExceptScores r (applyScores defaultRerankConfig "berberine" scenarioResult2023)) ∧
    ((unrelatedResult, unrelatedResult) : SearchResult × SearchResult).2 =
      ((unrelatedResult, unrelatedResult) : SearchResult × SearchResult).1 :=
  ⟨(claim10_rerank_frame defaultRerankConfig "berberine" [scenarioResult2023, unrelatedResult]
      (1 / 20)).1 (applyScores defaultRerankConfig "berberine" scenarioResult2023) (by
        rw [rerank_pair_eval]
        exact List.mem_singleton.mpr rfl),
   (claim10_rerank_frame defaultRerankConfig "berberine" [scenarioResult2023, unrelatedResult]
      (1 / 20)).2 (unrelatedResult, unrelatedResult) (by
        rw [rerankFinalState_pair_eval, List.zip_cons_cons]
        exact List.mem_cons.mpr (Or.inr (List.mem_cons.mpr (Or.inl rfl))))
      (by
        show compute_lexical_score "berberine" "zinc" none < 1 / 20
        rw [lexical_score_zinc]
        norm_num)⟩
